import Mathlib

/-!
Shallow embedding of the Leonardo AI API integration layer
(`leonardo.ts`, the `App` component of `index.tsx`, and `modelConfig.ts`).

The embedding keeps the source's data shapes: optional JSON fields become
`Option`, JavaScript truthiness tests are modelled explicitly, thrown
exceptions become `Except`, and the poll loop is a fuel-indexed recursion
that also records its observable events (status requests and delays) as a
trace.
-/

namespace LeoCore

/-! ## Data model: model capability descriptors (`modelConfig.ts`) -/

/-- One entry of a model's guidance table:
`\x7b preprocessorId, maxInputs, usesWeight \x7d` in `modelConfig.ts`. -/
structure GuidanceEntry where
  preprocessorId : Nat
  maxInputs : Nat
  usesWeight : Bool
deriving DecidableEq

/-- The `ModelSupports` interface of `modelConfig.ts`; every field is
optional there, so each is an `Option` here.  The `guidance` record
(guidance-type name to entry) is embedded as an association list. -/
structure ModelSupports where
  alchemy : Option Bool := none
  contrast : Option Bool := none
  aspectRatios : Option (List String) := none
  guidance : Option (List (String × GuidanceEntry)) := none
  contextGuidance : Option (List String) := none
  promptEnhance : Option Bool := none
  resolutions : Option (List String) := none
  frameInterpolation : Option Bool := none
deriving DecidableEq

/-- The `nodeType` discriminator of `ModelConfigEntry`. -/
inductive NodeType where
  | imageGeneration
  | imageEdit
  | textToVideo
deriving DecidableEq

/-- The `ModelDefaults` interface of `modelConfig.ts`. -/
structure ModelDefaults where
  strength : Option Rat := none
  style : Option String := none
  contrast : Option Rat := none
  numImages : Option Nat := none
  photoReal : Option Bool := none
  resolution : Option String := none
  frameInterpolation : Option Bool := none
  promptEnhance : Option Bool := none
deriving DecidableEq

/-- The `ModelConfigEntry` interface of `modelConfig.ts`
(`id` is nullable for the video models). -/
structure ModelConfigEntry where
  id : Option String
  nodeType : NodeType
  family : String
  supports : ModelSupports
  defaults : ModelDefaults
deriving DecidableEq

/-- `Object.keys(ASPECT_RATIO_DIMENSIONS)` from `modelConfig.ts`. -/
def ASPECT_RATIO_KEYS : List String := ["1:1", "16:9", "9:16", "4:3", "3:4"]

/-- The `MODEL_CONFIG` entry for "FLUX.1 Kontext": a context-guidance model. -/
def fluxKontext : ModelConfigEntry :=
  { id := some "28aeddf8-bd19-4803-80fc-79602d1a9989"
    nodeType := .imageGeneration
    family := "FLUX"
    supports :=
      { contrast := some true
        aspectRatios := some ASPECT_RATIO_KEYS
        contextGuidance := some ["SUBJECT_AND_STYLE", "STYLE_ONLY", "SUBJECT_ONLY", "NEGATIVE"] }
    defaults := { strength := some ((6 : Rat) / 10) } }

/-- The `MODEL_CONFIG` entry for "Flux Dev (Precision)": a guidance-table model. -/
def fluxDevPrecision : ModelConfigEntry :=
  { id := some "b2614463-296c-462a-9586-aafdb8f00e36"
    nodeType := .imageGeneration
    family := "FLUX"
    supports :=
      { contrast := some true
        aspectRatios := some ASPECT_RATIO_KEYS
        guidance := some
          [("Style Reference", { preprocessorId := 299, maxInputs := 4, usesWeight := false }),
           ("Content Reference", { preprocessorId := 233, maxInputs := 1, usesWeight := false })] }
    defaults := { style := some "Dynamic", contrast := some 1 } }

/-- The `MODEL_CONFIG` entry for "Leonardo Phoenix 1.0": alchemy + guidance. -/
def leonardoPhoenix10 : ModelConfigEntry :=
  { id := some "de7d3faf-762f-48e0-b3b7-9d0ac3a3fcf3"
    nodeType := .imageGeneration
    family := "PHOENIX"
    supports :=
      { alchemy := some true
        contrast := some true
        aspectRatios := some ASPECT_RATIO_KEYS
        guidance := some
          [("Style Reference", { preprocessorId := 166, maxInputs := 4, usesWeight := false }),
           ("Character Reference", { preprocessorId := 397, maxInputs := 1, usesWeight := false }),
           ("Content Reference", { preprocessorId := 364, maxInputs := 1, usesWeight := false })] }
    defaults := { style := some "Dynamic", contrast := some ((5 : Rat) / 2) } }

/-! ## Data model: guidance images and request payloads -/

/-- The upload `status` of a `GuidanceImage` in `index.tsx`. -/
inductive UploadStatus where
  | uploading
  | ready
  | error
deriving DecidableEq

/-- The `GuidanceImage` interface of `index.tsx` (the `file`, `previewUrl`
and `error` fields are UI-only and carry no information the request
builder reads). -/
structure GuidanceImage where
  tempId : String
  id : Option String := none
  status : UploadStatus
  guidanceType : String
  strengthType : String
  weight : Rat
  contextType : Option String := none
deriving DecidableEq

/-- JavaScript truthiness of an optional string: `undefined` and `""` are
falsy, every other string is truthy. -/
def truthyStr (o : Option String) : Bool :=
  match o with
  | some s => s != ""
  | none => false

/-- JavaScript truthiness of an optional boolean (`undefined` is falsy). -/
def truthyB (o : Option Bool) : Bool := o.getD false

/-- The ready-image filter of `handleSubmit`:
`img.status === 'ready' && img.id` (note `img.id` is a truthiness test,
so an empty-string id is excluded too). -/
def isReady (img : GuidanceImage) : Bool :=
  match img.status, img.id with
  | .ready, some s => s != ""
  | _, _ => false

/-- One `controlnets` entry as it appears on the wire.  The source builds
one of two exclusive object shapes (`weight` xor `strengthType`); here the
two optional fields record which shape was built. -/
structure ControlNetParams where
  initImageId : String
  initImageType : String
  preprocessorId : Nat
  weight : Option Rat := none
  strengthType : Option String := none
deriving DecidableEq

/-- One `contextImages` entry (`\x7b init_image_id, context \x7d`). -/
structure ContextImageParams where
  init_image_id : String
  context : String
deriving DecidableEq

/-- The `GenerationParams` request body (`leonardo.ts`), restricted to the
fields the `handleSubmit` builder can set; absent JSON keys are `none`. -/
structure GenerationParams where
  prompt : String
  modelId : Option String := none
  width : Nat
  height : Nat
  num_images : Nat
  alchemy : Option Bool := none
  photoReal : Option Bool := none
  presetStyle : Option String := none
  contrast : Option Rat := none
  controlnets : Option (List ControlNetParams) := none
  contextImages : Option (List ContextImageParams) := none
deriving DecidableEq

/-! ## Parameter Builder (`handleSubmit`, `index.tsx` lines 222-276) -/

/-- The whitespace class of the JavaScript regex `\s` (ASCII part plus the
common Unicode members); used by the preset-style wire transform. -/
def jsWhitespace (c : Char) : Bool :=
  c == ' ' || c == '\t' || c == '\n' || c == '\r' || c == '\x0b' || c == '\x0c' ||
  c == '\u00A0' || c == '\uFEFF'

/-- `style.toUpperCase().replace(/\s/g, '_')` from `handleSubmit`: first
upper-case every character, then replace each whitespace character by an
underscore (written over the character list so that it evaluates inside
the kernel). -/
def presetStyleWire (s : String) : String :=
  String.mk ((s.data.map Char.toUpper).map (fun c => if jsWhitespace c then '_' else c))

/-- `selectedConfig.supports.guidance?.[img.guidanceType]`: lookup in the
guidance table by guidance-type name. -/
def lookupGuidance (table : List (String × GuidanceEntry)) (ty : String) :
    Option GuidanceEntry :=
  (table.find? (fun p => p.1 == ty)).map (·.2)

/-- The per-image controlnet construction inside `readyImages.map` in
`handleSubmit`: fails (the source throws) when the image's guidance type
is absent from the table, otherwise builds exactly one of the two shapes
according to `usesWeight`. -/
def buildControlNet (table : List (String × GuidanceEntry)) (img : GuidanceImage) :
    Except String ControlNetParams :=
  match lookupGuidance table img.guidanceType with
  | none => .error ("Invalid guidance type \"" ++ img.guidanceType ++ "\" for this model.")
  | some cfg =>
    if cfg.usesWeight then
      .ok { initImageId := img.id.getD ""
            initImageType := "UPLOADED"
            preprocessorId := cfg.preprocessorId
            weight := some img.weight
            strengthType := none }
    else
      .ok { initImageId := img.id.getD ""
            initImageType := "UPLOADED"
            preprocessorId := cfg.preprocessorId
            weight := none
            strengthType := some img.strengthType }

/-- `Array.prototype.map` with a callback that may throw: the first
failure aborts the whole map, as the source's exception does. -/
def mapOrThrow (f : α → Except ε β) : List α → Except ε (List β)
  | [] => .ok []
  | a :: as =>
    match f a with
    | .error e => .error e
    | .ok b =>
      match mapOrThrow f as with
      | .error e => .error e
      | .ok bs => .ok (b :: bs)

/-- The caller-side state `handleSubmit` reads when building the request:
prompt, dimensions, style, contrast, the alchemy/photoReal toggles and
the staged guidance images. -/
structure SubmitState where
  prompt : String
  width : Nat
  height : Nat
  style : String
  contrast : Rat
  alchemy : Bool
  photoReal : Bool
  guidanceImages : List GuidanceImage
deriving DecidableEq

/-- The scalar part of the `params` object built by `handleSubmit`
(lines 222-237): base fields always present, then the conditionally
assigned `alchemy` / `photoReal` / `presetStyle` / `contrast` keys,
written here as conditional fields with the source's exact conditions
(`supports.alchemy` truthiness, the nested `if (alchemy)`, the
`style && style !== 'None'` test, `supports.contrast` truthiness). -/
def buildBaseParams (config : ModelConfigEntry) (st : SubmitState) : GenerationParams :=
  { prompt := st.prompt
    modelId := config.id
    width := st.width
    height := st.height
    num_images := 1
    alchemy := if truthyB config.supports.alchemy then some st.alchemy else none
    photoReal :=
      if truthyB config.supports.alchemy && st.alchemy then some st.photoReal else none
    presetStyle :=
      if truthyB config.supports.alchemy && st.alchemy &&
          (st.style != "" && st.style != "None") then
        some (presetStyleWire st.style)
      else none
    contrast := if truthyB config.supports.contrast then some st.contrast else none }

/-- The full request-building part of `handleSubmit` (lines 222-276):
the scalar fields, then the context-image branch (taken whenever the
descriptor declares `contextGuidance` — a defined array is truthy — and
any guidance image exists), else the guidance branch.  Either branch adds
its list only when at least one ready image exists; the guidance branch
can fail on an undeclared guidance type. -/
def buildGenerationParams (config : ModelConfigEntry) (st : SubmitState) :
    Except String GenerationParams :=
  if config.supports.contextGuidance.isSome && st.guidanceImages.length > 0 then
    if (st.guidanceImages.filter isReady).length > 0 then
      .ok { buildBaseParams config st with
            contextImages := some ((st.guidanceImages.filter isReady).map (fun img =>
              { init_image_id := img.id.getD "", context := img.contextType.getD "" })) }
    else .ok (buildBaseParams config st)
  else if config.supports.guidance.isSome && st.guidanceImages.length > 0 then
    if (st.guidanceImages.filter isReady).length > 0 then
      match mapOrThrow (buildControlNet (config.supports.guidance.getD []))
          (st.guidanceImages.filter isReady) with
      | .error e => .error e
      | .ok cns => .ok { buildBaseParams config st with controlnets := some cns }
    else .ok (buildBaseParams config st)
  else .ok (buildBaseParams config st)

/-! ## Job Lifecycle Coordinator (`pollForResult` and the submit/poll part
of `handleSubmit`, `index.tsx` lines 99-120 and 279-297) -/

/-- The job status values of `GenerationResult` in `leonardo.ts`. -/
inductive GenStatus where
  | PENDING
  | COMPLETE
  | FAILED
deriving DecidableEq

/-- One element of `generated_images`. -/
structure GeneratedImage where
  id : String
  url : String
deriving DecidableEq

/-- The `generations_by_pk` object of a poll response. -/
structure GenerationsByPk where
  id : String
  status : GenStatus
  generated_images : Option (List GeneratedImage) := none
deriving DecidableEq

/-- The `GenerationResult` poll-response shape of `leonardo.ts`
(`generations_by_pk` is optional). -/
structure GenerationResult where
  generations_by_pk : Option GenerationsByPk := none
deriving DecidableEq

/-- The `sdGenerationJob` object of the submission response. -/
structure SdGenerationJob where
  generationId : String
deriving DecidableEq

/-- The `InitialGenerationResponse` shape of `leonardo.ts`. -/
structure InitialGenerationResponse where
  sdGenerationJob : Option SdGenerationJob := none
deriving DecidableEq

/-- `response.generations_by_pk?.status`: the status a poll response
observes, `none` when `generations_by_pk` is absent. -/
def statusOf (r : GenerationResult) : Option GenStatus :=
  r.generations_by_pk.map (·.status)

/-- An observable event of the poll loop: one GET of the status endpoint,
or one `setTimeout` delay (milliseconds). -/
inductive PollEvent where
  | request
  | delay (ms : Nat)
deriving DecidableEq

/-- Outcome of `pollForResult`: return of the COMPLETE response, the
thrown "Generation failed." error, or the thrown "Polling timed out."
error. -/
inductive PollOutcome where
  | complete (r : GenerationResult)
  | generationFailed
  | pollingTimedOut
deriving DecidableEq

/-- The `while (attempts < maxAttempts)` loop of `pollForResult`, indexed
by the remaining attempt budget (`fuel = maxAttempts - attempts`).  Each
iteration issues one status request; a COMPLETE response is returned, a
FAILED response throws, and anything else (PENDING, or a response without
`generations_by_pk`) waits 10 seconds and loops.  The event trace records
the requests and delays in program order.  `resp n` is the response to
the n-th status request. -/
def pollLoop (resp : Nat → GenerationResult) : Nat → Nat → List PollEvent × PollOutcome
  | _, 0 => ([], .pollingTimedOut)
  | attempts, fuel + 1 =>
    match statusOf (resp attempts) with
    | some .COMPLETE => ([.request], .complete (resp attempts))
    | some .FAILED => ([.request], .generationFailed)
    | _ =>
      let rest := pollLoop resp (attempts + 1) fuel
      (.request :: .delay 10000 :: rest.1, rest.2)

/-- `const maxAttempts = 30` in `pollForResult`. -/
def maxAttempts : Nat := 30

/-- `pollForResult` (`index.tsx` lines 99-120): run the loop from
`attempts = 0` with the full budget. -/
def pollForResult (resp : Nat → GenerationResult) : List PollEvent × PollOutcome :=
  pollLoop resp 0 maxAttempts

/-- Whether a poll event is a status request. -/
def isRequest : PollEvent → Bool
  | .request => true
  | .delay _ => false

/-- Number of status requests recorded in a trace. -/
def countRequests (trace : List PollEvent) : Nat :=
  (trace.filter isRequest).length

/-- `finalResult.generations_by_pk?.generated_images?.[0]?.url`: the first
output asset URL of a poll response, `none` when any link of the chain is
absent. -/
def firstImageUrl (r : GenerationResult) : Option String :=
  match r.generations_by_pk with
  | some g =>
    match g.generated_images with
    | some (img :: _) => some img.url
    | _ => none
  | none => none

/-- Terminal outcome of one submission, mirroring the distinct thrown
errors and the success path of `handleSubmit`. -/
inductive SubmitOutcome where
  | done (url : String)
  | missingIdentifier
  | missingAsset
  | generationFailed
  | pollingTimedOut
deriving DecidableEq

/-- The submit-and-track part of `handleSubmit` (`index.tsx` lines
279-297), given the submission response and the poll-response sequence:
extract `sdGenerationJob?.generationId` (a truthiness test, so an absent
object or an empty id both fail with the missing-identifier error before
any poll call), then poll, then extract the first image URL from the
COMPLETE response (again a truthiness test).  The second component counts
the status requests the run issued. -/
def handleSubmit (initial : InitialGenerationResponse)
    (resp : Nat → GenerationResult) : SubmitOutcome × Nat :=
  match initial.sdGenerationJob with
  | none => (.missingIdentifier, 0)
  | some job =>
    if job.generationId = "" then (.missingIdentifier, 0)
    else
      let p := pollForResult resp
      let n := countRequests p.1
      match p.2 with
      | .complete r =>
        match firstImageUrl r with
        | some u => if u = "" then (.missingAsset, n) else (.done u, n)
        | none => (.missingAsset, n)
      | .generationFailed => (.generationFailed, n)
      | .pollingTimedOut => (.pollingTimedOut, n)

/-! ## Request Client (`request` in `leonardo.ts`, lines 88-112) -/

/-- The observable part of a `fetch` `Response` the client reads: the
HTTP status, the body as text (`response.text()`), and the body as parsed
JSON (`response.json()`, `none` when the body is not valid JSON so the
parse would throw).  `α` is the expected JSON shape. -/
structure FetchResponse (α : Type) where
  status : Nat
  bodyText : String
  bodyJson : Option α

/-- The errors `request` can produce on a completed HTTP exchange: the
thrown non-2xx error carrying the status and the body text, or a JSON
parse failure on a success response. -/
inductive RequestError where
  | httpError (status : Nat) (body : String)
  | jsonDecodeFailed
deriving DecidableEq

/-- `Response.ok` per the fetch specification: status in the inclusive
range 200-299. -/
def responseOk (status : Nat) : Bool := 200 ≤ status && status ≤ 299

/-- The private `request` method of `LeonardoAPI`: on a non-ok response
read the body as text and throw an error carrying status and body;
otherwise return the parsed JSON body. -/
def request {α : Type} (r : FetchResponse α) : Except RequestError α :=
  if responseOk r.status then
    match r.bodyJson with
    | some j => .ok j
    | none => .error .jsonDecodeFailed
  else .error (.httpError r.status r.bodyText)

/-! ## Asset Uploader (`getInitImageUploadUrl` in `leonardo.ts` and the
extension resolution in `handleImageUpload`, `index.tsx` lines 145-151) -/

/-- `extension.toLowerCase()`, written over the character list so that it
evaluates inside the kernel. -/
def jsToLower (s : String) : String :=
  String.mk (s.data.map Char.toLower)

/-- The `\x7b extension \x7d` payload of the upload-ticket request. -/
structure InitImagePayload where
  extension : String
deriving DecidableEq

/-- An outgoing JSON API call: endpoint path, HTTP method and body. -/
structure UploadTicketCall where
  endpoint : String
  method : String
  body : InitImagePayload
deriving DecidableEq

/-- `getInitImageUploadUrl` (`leonardo.ts` lines 141-149): the call it
issues — a POST to `/init-image` whose body is the lower-cased
extension. -/
def getInitImageUploadUrl (extension : String) : UploadTicketCall :=
  { endpoint := "/init-image"
    method := "POST"
    body := { extension := jsToLower extension } }

/-- `file.name.split('.').pop()` from `handleImageUpload`: the last
dot-separated segment of the file name (`String.split` never yields an
empty array, so `pop` only returns `undefined` there in the impossible
empty case, kept as `none` here for fidelity to `getLast?`).  Splitting
is done on the character list so that it evaluates inside the kernel. -/
def fileExtensionOf (fileName : String) : Option String :=
  (((fileName.data).splitOn '.').map String.mk).getLast?

/-- The extension-resolution step of `handleImageUpload` (`index.tsx`
lines 145-146): `if (!extension) throw ...` — fails exactly when the
popped segment is absent or empty (JavaScript truthiness). -/
def resolveUploadExtension (fileName : String) : Except String String :=
  match fileExtensionOf fileName with
  | none => .error "Could not determine file extension."
  | some ext =>
    if ext = "" then .error "Could not determine file extension."
    else .ok ext

/-! ## Concrete inputs used by the witness theorems -/

/-- A poll response whose status is PENDING. -/
def pendingResult : GenerationResult :=
  { generations_by_pk := some { id := "job1", status := .PENDING } }

/-- A COMPLETE poll response carrying one generated image. -/
def completeResult : GenerationResult :=
  { generations_by_pk := some
      { id := "job1", status := .COMPLETE,
        generated_images := some [{ id := "i1", url := "http://x/y.png" }] } }

/-- A ready guidance image configured with the "Style Reference" type. -/
def imgStyle : GuidanceImage :=
  { tempId := "t1", id := some "id1", status := .ready,
    guidanceType := "Style Reference", strengthType := "Mid", weight := 1,
    contextType := some "" }

/-- Caller state holding one ready guidance image. -/
def stGuid : SubmitState :=
  { prompt := "x", width := 1024, height := 1024, style := "None", contrast := 1,
    alchemy := false, photoReal := false, guidanceImages := [imgStyle] }

/-- The controlnet entry the builder produces for `imgStyle` under the
"Flux Dev (Precision)" guidance table. -/
def cnMid : ControlNetParams :=
  { initImageId := "id1", initImageType := "UPLOADED", preprocessorId := 299,
    weight := none, strengthType := some "Mid" }

/-- The request body built for `stGuid` against "Flux Dev (Precision)". -/
def guidParams : GenerationParams :=
  { buildBaseParams fluxDevPrecision stGuid with controlnets := some [cnMid] }

/-- A ready context image (context type STYLE_ONLY). -/
def imgContext : GuidanceImage :=
  { tempId := "t2", id := some "ctx1", status := .ready, guidanceType := "",
    strengthType := "Mid", weight := 1, contextType := some "STYLE_ONLY" }

/-- Caller state holding one ready context image. -/
def stContext : SubmitState :=
  { prompt := "x", width := 1024, height := 1024, style := "None", contrast := 1,
    alchemy := false, photoReal := false, guidanceImages := [imgContext] }

/-- The request body built for `stContext` against "FLUX.1 Kontext". -/
def ctxParams : GenerationParams :=
  { buildBaseParams fluxKontext stContext with
    contextImages := some [{ init_image_id := "ctx1", context := "STYLE_ONLY" }] }

/-- Caller state with the alchemy toggle on and the "Sketch Bw" style. -/
def stAlchemy : SubmitState :=
  { prompt := "A majestic lion", width := 1024, height := 1024,
    style := "Sketch Bw", contrast := (5 : Rat) / 2, alchemy := true,
    photoReal := true, guidanceImages := [] }

/-! ## Lemmas about the poll loop -/

/-- One status request then one delay prepended to a trace adds exactly
one to the request count. -/
theorem countRequests_cons_pair (l : List PollEvent) :
    countRequests (.request :: .delay 10000 :: l) = countRequests l + 1 := by
  simp [countRequests, List.filter, isRequest]

/-- The loop never issues more status requests than it has fuel. -/
theorem pollLoop_count_le (resp : Nat → GenerationResult) (a fuel : Nat) :
    countRequests (pollLoop resp a fuel).1 ≤ fuel := by
  induction fuel generalizing a with
  | zero => simp [pollLoop, countRequests]
  | succ fuel ih =>
    simp only [pollLoop]
    cases h : statusOf (resp a) with
    | none =>
      simp only [countRequests_cons_pair]
      exact Nat.succ_le_succ (ih (a + 1))
    | some s =>
      cases s with
      | PENDING =>
        simp only [countRequests_cons_pair]
        exact Nat.succ_le_succ (ih (a + 1))
      | COMPLETE => simp [countRequests, List.filter, isRequest]
      | FAILED => simp [countRequests, List.filter, isRequest]

/-- With positive fuel the very first event of the loop is a status
request (never a delay). -/
theorem pollLoop_head (resp : Nat → GenerationResult) (a fuel : Nat) (h : 0 < fuel) :
    (pollLoop resp a fuel).1.head? = some .request := by
  cases fuel with
  | zero => omega
  | succ fuel =>
    simp only [pollLoop]
    cases hs : statusOf (resp a) with
    | none => rfl
    | some s => cases s <;> rfl

/-- When every response in the budget window is PENDING the loop runs its
full budget: it emits a request-then-delay pair per attempt and times
out. -/
theorem pollLoop_all_pending (resp : Nat → GenerationResult) (a fuel : Nat)
    (hp : ∀ n, n < fuel → statusOf (resp (a + n)) = some .PENDING) :
    pollLoop resp a fuel =
      ((List.replicate fuel [PollEvent.request, PollEvent.delay 10000]).flatten,
       .pollingTimedOut) := by
  induction fuel generalizing a with
  | zero => simp [pollLoop]
  | succ fuel ih =>
    have h0 : statusOf (resp a) = some .PENDING := by
      simpa using hp 0 (Nat.succ_pos _)
    have ihh := ih (a + 1) (fun n hn => by
      have h1 := hp (n + 1) (Nat.succ_lt_succ hn)
      rw [show a + 1 + n = a + (n + 1) from by omega]
      exact h1)
    simp only [pollLoop, h0, ihh, List.replicate_succ, List.flatten]
    rfl

/-- When the first `j` responses are PENDING and the `j`-th is COMPLETE
(within the budget), the loop emits `j` request/delay pairs, a final
request, and returns that COMPLETE response. -/
theorem pollLoop_pending_then_complete (resp : Nat → GenerationResult)
    (j a fuel : Nat) (hj : j < fuel)
    (hp : ∀ n, n < j → statusOf (resp (a + n)) = some .PENDING)
    (hc : statusOf (resp (a + j)) = some .COMPLETE) :
    pollLoop resp a fuel =
      ((List.replicate j [PollEvent.request, PollEvent.delay 10000]).flatten ++
        [PollEvent.request],
       .complete (resp (a + j))) := by
  induction j generalizing a fuel with
  | zero =>
    cases fuel with
    | zero => omega
    | succ fuel =>
      rw [Nat.add_zero] at hc
      simp [pollLoop, hc]
  | succ j ih =>
    cases fuel with
    | zero => omega
    | succ fuel =>
      have h0 : statusOf (resp a) = some .PENDING := by
        simpa using hp 0 (Nat.succ_pos _)
      have hc1 : statusOf (resp (a + 1 + j)) = some .COMPLETE := by
        rw [show a + 1 + j = a + (j + 1) from by omega]
        exact hc
      have ihh := ih (a + 1) fuel (by omega)
        (fun n hn => by
          have h1 := hp (n + 1) (Nat.succ_lt_succ hn)
          rw [show a + 1 + n = a + (n + 1) from by omega]
          exact h1)
        hc1
      rw [show a + 1 + j = a + (j + 1) from by omega] at ihh
      simp only [pollLoop, h0, ihh, List.replicate_succ, List.flatten]
      rfl

/-! ## Lemmas about the parameter builder -/

/-- Every member of a successful `mapOrThrow` image comes from a member
of the input list on which the callback succeeded. -/
theorem mapOrThrow_mem {α β ε : Type} {f : α → Except ε β} :
    ∀ {l : List α} {l2 : List β}, mapOrThrow f l = .ok l2 →
      ∀ b ∈ l2, ∃ a ∈ l, f a = .ok b := by
  intro l
  induction l with
  | nil =>
    intro l2 h b hb
    simp only [mapOrThrow] at h
    injection h with h
    subst h
    simp at hb
  | cons a as ih =>
    intro l2 h b hb
    simp only [mapOrThrow] at h
    cases hfa : f a with
    | error e => rw [hfa] at h; exact Except.noConfusion h
    | ok b0 =>
      rw [hfa] at h
      cases hrest : mapOrThrow f as with
      | error e => rw [hrest] at h; exact Except.noConfusion h
      | ok bs =>
        rw [hrest] at h
        injection h with h
        subst h
        rcases List.mem_cons.mp hb with hb | hb
        · exact ⟨a, List.mem_cons_self a as, by rw [hb]; exact hfa⟩
        · obtain ⟨a2, ha2, hfa2⟩ := ih hrest b hb
          exact ⟨a2, List.mem_cons_of_mem a ha2, hfa2⟩

/-- Whatever branch the builder takes, the scalar keys of a successfully
built body are the ones `buildBaseParams` assigns. -/
theorem buildGenerationParams_ok_scalar (config : ModelConfigEntry) (st : SubmitState)
    (params : GenerationParams) (h : buildGenerationParams config st = .ok params) :
    params.alchemy = (buildBaseParams config st).alchemy ∧
    params.photoReal = (buildBaseParams config st).photoReal ∧
    params.presetStyle = (buildBaseParams config st).presetStyle := by
  unfold buildGenerationParams at h
  split at h
  · split at h
    · injection h with h; subst h; exact ⟨rfl, rfl, rfl⟩
    · injection h with h; subst h; exact ⟨rfl, rfl, rfl⟩
  · split at h
    · split at h
      · split at h
        · exact Except.noConfusion h
        · injection h with h; subst h; exact ⟨rfl, rfl, rfl⟩
      · injection h with h; subst h; exact ⟨rfl, rfl, rfl⟩
    · injection h with h; subst h; exact ⟨rfl, rfl, rfl⟩

/-! ## Claim theorems: parameter builder -/

/-- C1: every entry of the emitted `controlnets` list comes from a ready
guidance image whose guidance type resolves in the model's guidance
table, and it carries exactly one strength field: `weight` (and no
`strengthType`) when the matching table entry's `usesWeight` is true, and
`strengthType` (and no `weight`) when it is false. -/
theorem controlnet_strength_exclusive (config : ModelConfigEntry) (st : SubmitState)
    (params : GenerationParams) (cns : List ControlNetParams) (cn : ControlNetParams)
    (h : buildGenerationParams config st = .ok params)
    (hcns : params.controlnets = some cns) (hmem : cn ∈ cns) :
    ∃ img e, img ∈ st.guidanceImages.filter isReady ∧
      lookupGuidance (config.supports.guidance.getD []) img.guidanceType = some e ∧
      ((e.usesWeight = true ∧ cn.weight = some img.weight ∧ cn.strengthType = none) ∨
       (e.usesWeight = false ∧ cn.weight = none ∧ cn.strengthType = some img.strengthType)) := by
  unfold buildGenerationParams at h
  split at h
  · split at h
    · injection h with h; subst h
      simp [buildBaseParams] at hcns
    · injection h with h; subst h
      simp [buildBaseParams] at hcns
  · split at h
    · split at h
      · split at h
        · exact Except.noConfusion h
        · rename_i cns2 heq
          injection h with h; subst h
          have hcns2 : some cns2 = some cns := hcns
          injection hcns2 with hcns2
          subst hcns2
          obtain ⟨img, himg, hbc⟩ := mapOrThrow_mem heq cn hmem
          unfold buildControlNet at hbc
          cases hl : lookupGuidance (config.supports.guidance.getD []) img.guidanceType with
          | none =>
            rw [hl] at hbc
            exact Except.noConfusion hbc
          | some e =>
            simp only [hl] at hbc
            by_cases hw : e.usesWeight
            · rw [if_pos hw] at hbc
              injection hbc with hbc
              exact ⟨img, e, himg, hl, Or.inl ⟨hw, by rw [← hbc], by rw [← hbc]⟩⟩
            · rw [if_neg hw] at hbc
              injection hbc with hbc
              exact ⟨img, e, himg, hl,
                Or.inr ⟨Bool.not_eq_true _ ▸ hw, by rw [← hbc], by rw [← hbc]⟩⟩
      · injection h with h; subst h
        simp [buildBaseParams] at hcns
    · injection h with h; subst h
      simp [buildBaseParams] at hcns

/-- Witness for C1: a ready "Style Reference" image against the "Flux Dev
(Precision)" table (usesWeight false) yields a `strengthType`-only
entry. -/
theorem controlnet_strength_exclusive_witness :
    ∃ img e, img ∈ stGuid.guidanceImages.filter isReady ∧
      lookupGuidance (fluxDevPrecision.supports.guidance.getD []) img.guidanceType = some e ∧
      ((e.usesWeight = true ∧ cnMid.weight = some img.weight ∧ cnMid.strengthType = none) ∨
       (e.usesWeight = false ∧ cnMid.weight = none ∧ cnMid.strengthType = some img.strengthType)) :=
  controlnet_strength_exclusive fluxDevPrecision stGuid guidParams [cnMid] cnMid
    (by rfl) rfl (List.mem_singleton.mpr rfl)

/-- C2: when the capability descriptor declares `contextGuidance`, a
successfully built body never contains `controlnets`, and whenever at
least one ready image exists it contains `contextImages` with one
`init_image_id`/`context` entry per ready image. -/
theorem contextGuidance_priority (config : ModelConfigEntry) (st : SubmitState)
    (params : GenerationParams)
    (hctx : config.supports.contextGuidance.isSome = true)
    (h : buildGenerationParams config st = .ok params) :
    params.controlnets = none ∧
    (st.guidanceImages.filter isReady ≠ [] →
      params.contextImages = some ((st.guidanceImages.filter isReady).map (fun img =>
        { init_image_id := img.id.getD "", context := img.contextType.getD "" }))) := by
  unfold buildGenerationParams at h
  split at h
  case _ hcond =>
    split at h
    case _ hlen =>
      injection h with h; subst h
      exact ⟨rfl, fun _ => rfl⟩
    case _ hlen =>
      injection h with h; subst h
      refine ⟨rfl, fun hne => ?_⟩
      exact absurd (List.length_eq_zero.mp (by omega)) hne
  case _ hcond =>
    rw [Bool.and_eq_true, hctx] at hcond
    have hlen : ¬ st.guidanceImages.length > 0 := by
      intro hgt
      exact hcond ⟨rfl, by simpa using hgt⟩
    have himg : st.guidanceImages = [] := List.length_eq_zero.mp (by omega)
    rw [himg] at h
    simp only [List.length_nil, List.filter_nil] at h
    norm_num at h
    subst h
    rw [himg]
    exact ⟨rfl, fun hne => absurd rfl hne⟩

/-- Witness for C2: one ready context image against "FLUX.1 Kontext"
yields `contextImages` and no `controlnets`. -/
theorem contextGuidance_priority_witness :
    ctxParams.controlnets = none ∧
    ctxParams.contextImages = some [{ init_image_id := "ctx1", context := "STYLE_ONLY" }] :=
  ⟨(contextGuidance_priority fluxKontext stContext ctxParams rfl (by rfl)).1,
   (contextGuidance_priority fluxKontext stContext ctxParams rfl (by rfl)).2 (by decide)⟩

/-- C3: the built body contains the `photoReal` key exactly when the
descriptor declares alchemy support and the caller's alchemy toggle is
enabled, and whenever `photoReal` is present `alchemy: true` is present
in the same body. -/
theorem photoReal_requires_alchemy (config : ModelConfigEntry) (st : SubmitState)
    (params : GenerationParams) (h : buildGenerationParams config st = .ok params) :
    (params.photoReal.isSome ↔
      truthyB config.supports.alchemy = true ∧ st.alchemy = true) ∧
    (params.photoReal.isSome → params.alchemy = some true) := by
  obtain ⟨ha, hp, -⟩ := buildGenerationParams_ok_scalar config st params h
  constructor
  · rw [hp]
    show (if truthyB config.supports.alchemy && st.alchemy then
        some st.photoReal else none).isSome = true ↔ _
    by_cases h1 : truthyB config.supports.alchemy <;>
      by_cases h2 : st.alchemy <;> simp [h1, h2]
  · intro hs
    rw [hp] at hs
    have hs2 : (truthyB config.supports.alchemy && st.alchemy) = true := by
      by_contra hne
      rw [show (buildBaseParams config st).photoReal =
          (if truthyB config.supports.alchemy && st.alchemy then
            some st.photoReal else none) from rfl] at hs
      rw [if_neg hne] at hs
      exact Bool.noConfusion hs
    rw [Bool.and_eq_true] at hs2
    rw [ha]
    show (if truthyB config.supports.alchemy then some st.alchemy else none) = some true
    rw [if_pos hs2.1, hs2.2]

/-- Witness for C3: with "Leonardo Phoenix 1.0" (alchemy supported) and
the toggle on, the built body carries `alchemy: true`. -/
theorem photoReal_requires_alchemy_witness :
    (buildBaseParams leonardoPhoenix10 stAlchemy).alchemy = some true :=
  (photoReal_requires_alchemy leonardoPhoenix10 stAlchemy
      (buildBaseParams leonardoPhoenix10 stAlchemy) (by rfl)).2 (by decide)

/-- C4: the built body contains `presetStyle` only when the alchemy
toggle is enabled and the chosen style is not "None", and its value is
the chosen style upper-cased with every whitespace character replaced by
an underscore. -/
theorem presetStyle_only_with_alchemy (config : ModelConfigEntry) (st : SubmitState)
    (params : GenerationParams) (h : buildGenerationParams config st = .ok params) :
    (params.presetStyle.isSome → st.alchemy = true ∧ st.style ≠ "None") ∧
    (∀ s, params.presetStyle = some s → s = presetStyleWire st.style) := by
  obtain ⟨-, -, hp⟩ := buildGenerationParams_ok_scalar config st params h
  have hps : params.presetStyle =
      (if truthyB config.supports.alchemy && st.alchemy &&
          (st.style != "" && st.style != "None") then
        some (presetStyleWire st.style) else none) := hp.trans rfl
  constructor
  · intro hs
    rw [hps] at hs
    by_cases h1 : (truthyB config.supports.alchemy && st.alchemy &&
        (st.style != "" && st.style != "None")) = true
    · rw [Bool.and_eq_true, Bool.and_eq_true] at h1
      refine ⟨h1.1.2, ?_⟩
      have := (Bool.and_eq_true _ _).mp h1.2
      exact bne_iff_ne.mp this.2
    · rw [if_neg h1] at hs
      exact Bool.noConfusion hs
  · intro s hs
    rw [hps] at hs
    by_cases h1 : (truthyB config.supports.alchemy && st.alchemy &&
        (st.style != "" && st.style != "None")) = true
    · rw [if_pos h1] at hs
      injection hs with hs
      exact hs.symm
    · rw [if_neg h1] at hs
      exact Option.noConfusion hs

/-- Witness for C4: with alchemy on and style "Sketch Bw" the built body
carries the style, whose wire form is "SKETCH_BW". -/
theorem presetStyle_only_with_alchemy_witness :
    (stAlchemy.alchemy = true ∧ stAlchemy.style ≠ "None") ∧
    "SKETCH_BW" = presetStyleWire "Sketch Bw" :=
  ⟨(presetStyle_only_with_alchemy leonardoPhoenix10 stAlchemy
      (buildBaseParams leonardoPhoenix10 stAlchemy) (by rfl)).1 (by decide),
   (presetStyle_only_with_alchemy leonardoPhoenix10 stAlchemy
      (buildBaseParams leonardoPhoenix10 stAlchemy) (by rfl)).2 "SKETCH_BW" (by decide)⟩

/-! ## Claim theorems: job lifecycle -/

/-- C5: for every submission the poll loop issues at most 30 status
requests; if all 30 responses observe status PENDING it fails with the
polling-timeout error and never attempts a 31st status request (exactly
30 are issued). -/
theorem poll_at_most_30_requests (resp : Nat → GenerationResult) :
    countRequests (pollForResult resp).1 ≤ 30 ∧
    ((∀ n, n < 30 → statusOf (resp n) = some .PENDING) →
      (pollForResult resp).2 = .pollingTimedOut ∧
      countRequests (pollForResult resp).1 = 30) := by
  constructor
  · exact pollLoop_count_le resp 0 30
  · intro hp
    have h := pollLoop_all_pending resp 0 30 (fun n hn => by simpa using hp n hn)
    unfold pollForResult maxAttempts
    rw [h]
    exact ⟨rfl, by decide⟩

/-- Witness for C5: an all-PENDING response stream times out after
exactly 30 status requests. -/
theorem poll_at_most_30_requests_witness :
    (pollForResult (fun _ => pendingResult)).2 = .pollingTimedOut ∧
    countRequests (pollForResult (fun _ => pendingResult)).1 = 30 :=
  (poll_at_most_30_requests (fun _ => pendingResult)).2 (fun _ _ => rfl)

/-- C10: the first status request is issued immediately (the trace never
begins with a delay); on an all-PENDING run the trace is exactly 30
request-then-10-second-delay pairs, so the 30th PENDING observation is
still followed by a trailing delay before the timeout error; and on a run
of k PENDING observations followed by COMPLETE each PENDING — and only
each PENDING — is followed by the fixed delay. -/
theorem poll_delay_placement (resp : Nat → GenerationResult) :
    (pollForResult resp).1.head? = some .request ∧
    ((∀ n, n < 30 → statusOf (resp n) = some .PENDING) →
      (pollForResult resp).1 =
        (List.replicate 30 [PollEvent.request, PollEvent.delay 10000]).flatten) ∧
    (∀ k, k < 30 → (∀ n, n < k → statusOf (resp n) = some .PENDING) →
      statusOf (resp k) = some .COMPLETE →
      (pollForResult resp).1 =
        (List.replicate k [PollEvent.request, PollEvent.delay 10000]).flatten ++
          [PollEvent.request]) := by
  refine ⟨pollLoop_head resp 0 30 (by decide), ?_, ?_⟩
  · intro hp
    have h := pollLoop_all_pending resp 0 30 (fun n hn => by simpa using hp n hn)
    unfold pollForResult maxAttempts
    rw [h]
  · intro k hk hp hc
    have h := pollLoop_pending_then_complete resp k 0 30 hk
      (fun n hn => by simpa using hp n hn) (by simpa using hc)
    unfold pollForResult maxAttempts
    rw [h]

/-- Witness for C10: on the all-PENDING stream the trace starts with a
request and equals the 30 request/delay pairs. -/
theorem poll_delay_placement_witness :
    (pollForResult (fun _ => pendingResult)).1.head? = some .request ∧
    (pollForResult (fun _ => pendingResult)).1 =
      (List.replicate 30 [PollEvent.request, PollEvent.delay 10000]).flatten :=
  ⟨(poll_delay_placement (fun _ => pendingResult)).1,
   (poll_delay_placement (fun _ => pendingResult)).2.1 (fun _ _ => rfl)⟩

/-- C6: with a valid job identifier, a poll sequence of k ≤ 29 PENDING
responses followed by a COMPLETE response makes the coordinator resolve
to the url of the first element of `generated_images`; if that COMPLETE
response carries no (non-empty) image URL it fails with the
missing-asset error instead. -/
theorem complete_resolves_first_image_url (gid : String) (resp : Nat → GenerationResult)
    (k : Nat) (hgid : gid ≠ "") (hk : k ≤ 29)
    (hp : ∀ n, n < k → statusOf (resp n) = some .PENDING)
    (hc : statusOf (resp k) = some .COMPLETE) :
    (∀ u, firstImageUrl (resp k) = some u → u ≠ "" →
      (handleSubmit { sdGenerationJob := some { generationId := gid } } resp).1 = .done u) ∧
    (firstImageUrl (resp k) = none →
      (handleSubmit { sdGenerationJob := some { generationId := gid } } resp).1 =
        .missingAsset) := by
  have hpoll := pollLoop_pending_then_complete resp k 0 30 (by omega)
    (fun n hn => by simpa using hp n hn) (by simpa using hc)
  rw [Nat.zero_add] at hpoll
  constructor
  · intro u hu hne
    simp only [handleSubmit, pollForResult, maxAttempts]
    rw [if_neg hgid, hpoll]
    simp [hu, hne]
  · intro hu
    simp only [handleSubmit, pollForResult, maxAttempts]
    rw [if_neg hgid, hpoll]
    simp [hu]

/-- Witness for C6: a COMPLETE response on the first poll resolves to the
carried url. -/
theorem complete_resolves_first_image_url_witness :
    (handleSubmit { sdGenerationJob := some { generationId := "g1" } }
        (fun _ => completeResult)).1 = .done "http://x/y.png" :=
  (complete_resolves_first_image_url "g1" (fun _ => completeResult) 0
      (by decide) (by omega) (fun n hn => absurd hn (Nat.not_lt_zero n)) rfl).1
    "http://x/y.png" rfl (by decide)

/-- C7: a submission response without `sdGenerationJob.generationId`
fails immediately with the missing-identifier error and issues zero poll
calls. -/
theorem missing_identifier_no_polls (initial : InitialGenerationResponse)
    (resp : Nat → GenerationResult) (h : initial.sdGenerationJob = none) :
    handleSubmit initial resp = (.missingIdentifier, 0) := by
  simp [handleSubmit, h]

/-- Witness for C7: the empty submission response fails with zero polls
even against an all-PENDING stream. -/
theorem missing_identifier_no_polls_witness :
    handleSubmit { sdGenerationJob := none } (fun _ => pendingResult) =
      (.missingIdentifier, 0) :=
  missing_identifier_no_polls _ _ rfl

/-! ## Claim theorems: request client and uploader -/

/-- C8: a non-2xx HTTP response makes `request` fail with an error
carrying the response status and the body read as text; a 2xx response
returns the parsed JSON body. -/
theorem request_error_channel {α : Type} (r : FetchResponse α) :
    (responseOk r.status = false →
      request r = .error (.httpError r.status r.bodyText)) ∧
    (∀ j, responseOk r.status = true → r.bodyJson = some j → request r = .ok j) := by
  constructor
  · intro h
    simp [request, h]
  · intro j hok hj
    simp [request, hok, hj]

/-- Witness for C8: a 404 with body "not found" fails with that status
and body; a 200 carrying JSON 42 returns 42. -/
theorem request_error_channel_witness :
    request ({ status := 404, bodyText := "not found", bodyJson := none } :
        FetchResponse Nat) = .error (.httpError 404 "not found") ∧
    request ({ status := 200, bodyText := "42", bodyJson := some 42 } :
        FetchResponse Nat) = .ok 42 :=
  ⟨(request_error_channel _).1 (by decide),
   (request_error_channel _).2 42 (by decide) rfl⟩

/-- C9: the upload-ticket call is a POST to `/init-image` whose body is
the lower-cased extension, and the upload step fails when the resolved
extension is empty (and succeeds on any non-empty resolved extension). -/
theorem upload_ticket_post_lowercased (ext fileName : String) :
    getInitImageUploadUrl ext =
      { endpoint := "/init-image", method := "POST",
        body := { extension := jsToLower ext } } ∧
    ((fileExtensionOf fileName).getD "" = "" →
      resolveUploadExtension fileName = .error "Could not determine file extension.") ∧
    (∀ e, fileExtensionOf fileName = some e → e ≠ "" →
      resolveUploadExtension fileName = .ok e) := by
  refine ⟨rfl, ?_, ?_⟩
  · intro h
    unfold resolveUploadExtension
    cases he : fileExtensionOf fileName with
    | none => rfl
    | some e =>
      rw [he] at h
      simp only [Option.getD_some] at h
      simp [h]
  · intro e he hne
    simp [resolveUploadExtension, he, hne]

/-- Witness for C9: extension "PNG" is sent lower-cased, and a file name
ending in a dot resolves to an empty extension and fails. -/
theorem upload_ticket_post_lowercased_witness :
    (getInitImageUploadUrl "PNG").body.extension = "png" ∧
    resolveUploadExtension "archive." = .error "Could not determine file extension." :=
  ⟨by rw [(upload_ticket_post_lowercased "PNG" "archive.").1]; decide,
   (upload_ticket_post_lowercased "PNG" "archive.").2.1 (by decide)⟩

end LeoCore
